import Mathlib

/-!
Verification development for the interactive CDK stack manager.

The definitions below are a shallow embedding of the TypeScript source:
* `filterChoices`, `handleKeySearchable` (from `customSearchableSelect`) and
  `handleKeyMulti` (from `customMultiSelect`) in
  `src/services/InteractiveCDKManager.ts`;
* `getStackDetails` and `listCDKStacks` in `CDKStackService`
  (`src/unnamed/part_000`);
* the empty-selection guards of `showDeployMenu` / `showDestroyMenu`.

Modelling conventions:
* JavaScript numbers used as indices are modelled as `Int` (the code lets the
  cursor reach `-1`);
* a JS `Set<number>` is modelled as an insertion-ordered duplicate-free
  `List Int`;
* JS string comparison on single-character keys is code-unit comparison,
  modelled by `Char` order; `toLowerCase`/`trim`/`slice` are modelled by
  explicit functions over `String.data` (`jsToLowerCase`, `jsTrim`,
  `jsSliceDropLast`), agreeing with JS on the ASCII data involved;
* a thrown JS exception that is caught is an `Except.error` or an explicit
  branch; an uncaught throw inside the key handler is the `errored` outcome;
* `process.stdin.setRawMode(false)` is recorded as the `Bool` field of the
  terminal outcomes (`true` = raw mode was switched off before the handler
  returned control / exited the process).
-/

namespace CDKManager

/-- A selectable item as built by `showDeployMenu`/`showDestroyMenu`:
`name` is the rendered label, `value` the stack's full name.  The
presentation-only fields (`short`, `disabled`) are omitted. -/
structure Choice where
  name : String
  value : String
deriving Repr, DecidableEq

/-- Substring test on character lists: does `hay` contain `needle` as a
contiguous run?  (Model of JavaScript `String.prototype.includes`.) -/
def listIncludes (hay needle : List Char) : Bool :=
  match hay with
  | [] => needle.isEmpty
  | _ :: t => needle.isPrefixOf hay || listIncludes t needle

/-- Model of JavaScript `hay.includes(needle)`. -/
def strIncludes (hay needle : String) : Bool :=
  listIncludes hay.data needle.data

/-- Model of JavaScript `String.prototype.trim`: strips leading and
trailing whitespace. -/
def jsTrim (s : String) : String :=
  String.mk (((s.data.dropWhile (fun c => c.isWhitespace)).reverse.dropWhile
    (fun c => c.isWhitespace)).reverse)

/-- Model of JavaScript `String.prototype.toLowerCase` (per-character
lowercasing; the strings at play are ASCII). -/
def jsToLowerCase (s : String) : String :=
  String.mk (s.data.map Char.toLower)

/-- Model of JavaScript `String.prototype.slice(0, -1)`: drops the final
character (identity on the empty string). -/
def jsSliceDropLast (s : String) : String :=
  String.mk s.data.dropLast

/-- `Math.min` on JS numbers restricted to integers. -/
def mathMin (a b : Int) : Int :=
  if a ≤ b then a else b

/-- `Math.max` on JS numbers restricted to integers. -/
def mathMax (a b : Int) : Int :=
  if a ≤ b then b else a

/-- The `filterChoices` closure, identical in `customSearchableSelect` and
`customMultiSelect`: if `query.trim()` is falsy return every choice,
otherwise keep the choices whose lowercased `name` or `value` contains the
lowercased query. -/
def filterChoices (choices : List Choice) (query : String) : List Choice :=
  if jsTrim query = "" then
    choices
  else
    choices.filter (fun choice =>
      strIncludes (jsToLowerCase choice.name) (jsToLowerCase query) ||
      strIncludes (jsToLowerCase choice.value) (jsToLowerCase query))

/-- Case-insensitive containment as written in the specification
(`contains_ci(a, b)`). -/
def containsCI (a b : String) : Bool :=
  strIncludes (jsToLowerCase a) (jsToLowerCase b)

/-- Modelled from the spec's words, for comparison with `filterChoices`:
`filter(S, Q) = { i ∈ S : Q = "" ∨ contains_ci(i.label, Q) ∨ contains_ci(i.value, Q) }`
(the item's label is the `name` field). -/
def filterSpec (choices : List Choice) (query : String) : List Choice :=
  choices.filter (fun choice =>
    query = "" || containsCI choice.name query || containsCI choice.value query)

/-- JavaScript array indexing `arr[i]` with a possibly negative `i`:
out-of-range access yields `undefined`, modelled as `none`. -/
def jsGet (l : List Choice) (i : Int) : Option Choice :=
  if i < 0 then none else l.get? i.toNat

/-- JavaScript `choices.indexOf(choice)`: the index of the element, `-1` if
absent.  (The source compares by reference; the choice objects at play are
structurally distinct, so structural equality is faithful.) -/
def jsIndexOf (l : List Choice) (c : Choice) : Int :=
  if c ∈ l then (l.indexOf c : Int) else -1

/-- JS `Set.prototype.has`. -/
def setHas (s : List Int) (x : Int) : Bool :=
  s.contains x

/-- JS `Set.prototype.add` (keeps insertion order, ignores duplicates). -/
def setAdd (s : List Int) (x : Int) : List Int :=
  if s.contains x then s else s ++ [x]

/-- JS `Set.prototype.delete`. -/
def setDelete (s : List Int) (x : Int) : List Int :=
  s.erase x

/-- JS `arr.splice(arr.indexOf(v), 1)`: removes the first occurrence of `v`;
when `v` is absent `indexOf` gives `-1` and `splice(-1, 1)` removes the LAST
element (splice counts a negative start from the end). -/
def jsSpliceRemoveOne (l : List String) (v : String) : List String :=
  if l.contains v then l.erase v else l.dropLast

/-- The printable-character test of both key handlers:
`key.length === 1 && key >= " " && key <= "~"`. -/
def isPrintableKey (key : String) : Bool :=
  match key.data with
  | [c] => ' ' ≤ c && c ≤ '~'
  | _ => false

/-- The local state of `customMultiSelect`, fields in source order. -/
structure MultiSelectState where
  selectedStacks : List String
  currentIndex : Int
  selectedIndices : List Int
  searchQuery : String
  isSearching : Bool
  filteredChoices : List Choice
deriving Repr, DecidableEq

/-- Outcome of one `handleKey` call in `customMultiSelect`.  The `Bool`
carried by the terminal outcomes records whether
`process.stdin.setRawMode(false)` ran before control left the handler. -/
inductive MSOutcome where
  | cont (s : MultiSelectState)
  | done (result : List String) (rawModeOff : Bool)
  | interrupted (rawModeOff : Bool)
  | errored (s : MultiSelectState) (rawModeOff : Bool)
deriving Repr, DecidableEq

/-- Initial state of a `customMultiSelect` session. -/
def msInitState (choices : List Choice) : MultiSelectState :=
  { selectedStacks := [], currentIndex := 0, selectedIndices := [],
    searchQuery := "", isSearching := false, filteredChoices := choices }

/-- The `handleKey` closure of `customMultiSelect`, branch for branch.
`\x03` is Ctrl-C (`process.exit(0)` without restoring raw mode); `/` enters
search mode; in search mode Enter/Escape leave it, Backspace and printable
characters edit the query and refilter (cursor clamped by
`Math.min(currentIndex, filteredChoices.length - 1)` — no floor at 0);
outside search mode the arrows move the cursor, space toggles the choice
under the cursor (on an empty filtered view `filteredChoices[currentIndex]`
is `undefined`, `choices.indexOf(undefined)` is `-1`, and reading
`actualChoice.value` throws after the `Set` mutation), Enter restores the
terminal and resolves `selectedStacks`. -/
def handleKeyMulti (choices : List Choice) (s : MultiSelectState)
    (key : String) : MSOutcome :=
  if key = "\x03" then
    MSOutcome.interrupted false
  else if key = "/" ∧ s.isSearching = false then
    MSOutcome.cont { s with isSearching := true, searchQuery := "" }
  else if s.isSearching = true then
    if key = "\r" ∨ key = "\x1b" then
      let filtered := filterChoices choices s.searchQuery
      MSOutcome.cont { s with
        isSearching := false
        filteredChoices := filtered
        currentIndex := mathMin s.currentIndex ((filtered.length : Int) - 1) }
    else if key = "\x7f" ∨ key = "\x08" then
      let query := jsSliceDropLast s.searchQuery
      let filtered := filterChoices choices query
      MSOutcome.cont { s with
        searchQuery := query
        filteredChoices := filtered
        currentIndex := mathMin s.currentIndex ((filtered.length : Int) - 1) }
    else if isPrintableKey key = true then
      let query := s.searchQuery ++ key
      let filtered := filterChoices choices query
      MSOutcome.cont { s with
        searchQuery := query
        filteredChoices := filtered
        currentIndex := mathMin s.currentIndex ((filtered.length : Int) - 1) }
    else
      MSOutcome.cont s
  else if key = "\x1b[A" ∨ key = "\x1b[1;2A" ∨ key = "\x1b[1;9A" ∨ key = "\x1bOA" then
    MSOutcome.cont { s with currentIndex := mathMax 0 (s.currentIndex - 1) }
  else if key = "\x1b[B" ∨ key = "\x1b[1;2B" ∨ key = "\x1b[1;9B" ∨ key = "\x1bOB" then
    MSOutcome.cont { s with
      currentIndex := mathMin ((s.filteredChoices.length : Int) - 1) (s.currentIndex + 1) }
  else if key = " " then
    match jsGet s.filteredChoices s.currentIndex with
    | some actualChoice =>
      let actualIndex := jsIndexOf choices actualChoice
      if setHas s.selectedIndices actualIndex = true then
        MSOutcome.cont { s with
          selectedIndices := setDelete s.selectedIndices actualIndex
          selectedStacks := jsSpliceRemoveOne s.selectedStacks actualChoice.value }
      else
        MSOutcome.cont { s with
          selectedIndices := setAdd s.selectedIndices actualIndex
          selectedStacks := s.selectedStacks ++ [actualChoice.value] }
    | none =>
      if setHas s.selectedIndices (-1) = true then
        MSOutcome.errored { s with selectedIndices := setDelete s.selectedIndices (-1) } false
      else
        MSOutcome.errored { s with selectedIndices := setAdd s.selectedIndices (-1) } false
  else if key = "\r" then
    MSOutcome.done s.selectedStacks true
  else
    MSOutcome.cont s

/-- Runs `handleKeyMulti` over a sequence of keys; a terminal outcome
absorbs the rest of the sequence. -/
def msRun (choices : List Choice) : MultiSelectState → List String → MSOutcome
  | s, [] => MSOutcome.cont s
  | s, key :: keys =>
    match handleKeyMulti choices s key with
    | MSOutcome.cont s' => msRun choices s' keys
    | outcome => outcome

/-- The local state of `customSearchableSelect`, fields in source order. -/
structure SSState where
  selectedItems : List String
  currentIndex : Int
  selectedIndices : List Int
  searchQuery : String
  filteredChoices : List Choice
deriving Repr, DecidableEq

/-- Result resolved by `customSearchableSelect`: a single value in
single-select mode, the `selectedItems` list in multi-select mode. -/
inductive SSResult where
  | one (v : String)
  | many (vs : List String)
deriving Repr, DecidableEq

/-- Outcome of one `handleKey` call in `customSearchableSelect`; the `Bool`
records whether `setRawMode(false)` ran before control left the handler. -/
inductive SSOutcome where
  | cont (s : SSState)
  | done (result : SSResult) (rawModeOff : Bool)
  | interrupted (rawModeOff : Bool)
  | errored (s : SSState) (rawModeOff : Bool)
deriving Repr, DecidableEq

/-- Initial state of a `customSearchableSelect` session. -/
def ssInitState (choices : List Choice) : SSState :=
  { selectedItems := [], currentIndex := 0, selectedIndices := [],
    searchQuery := "", filteredChoices := choices }

/-- The `handleKey` closure of `customSearchableSelect`, branch for branch.
There is no search mode: every printable character (including space when
`multiSelect` is false, and `/`) extends the query; the cursor clamp after a
filter change is `Math.min(currentIndex, Math.max(0, length - 1))`.  On
Enter the terminal is restored first; in single-select mode with
`currentIndex = -1` and a non-empty filtered view the subsequent
`filteredChoices[currentIndex].value` read throws. -/
def handleKeySearchable (choices : List Choice) (multiSelect : Bool)
    (s : SSState) (key : String) : SSOutcome :=
  if key = "\x03" then
    SSOutcome.interrupted false
  else if key = "\x1b[A" ∨ key = "\x1b[1;2A" ∨ key = "\x1b[1;9A" ∨ key = "\x1bOA" then
    SSOutcome.cont { s with currentIndex := mathMax 0 (s.currentIndex - 1) }
  else if key = "\x1b[B" ∨ key = "\x1b[1;2B" ∨ key = "\x1b[1;9B" ∨ key = "\x1bOB" then
    SSOutcome.cont { s with
      currentIndex := mathMin ((s.filteredChoices.length : Int) - 1) (s.currentIndex + 1) }
  else if key = " " ∧ multiSelect = true then
    match jsGet s.filteredChoices s.currentIndex with
    | some actualChoice =>
      let actualIndex := jsIndexOf choices actualChoice
      if setHas s.selectedIndices actualIndex = true then
        SSOutcome.cont { s with
          selectedIndices := setDelete s.selectedIndices actualIndex
          selectedItems := jsSpliceRemoveOne s.selectedItems actualChoice.value }
      else
        SSOutcome.cont { s with
          selectedIndices := setAdd s.selectedIndices actualIndex
          selectedItems := s.selectedItems ++ [actualChoice.value] }
    | none =>
      if setHas s.selectedIndices (-1) = true then
        SSOutcome.errored { s with selectedIndices := setDelete s.selectedIndices (-1) } false
      else
        SSOutcome.errored { s with selectedIndices := setAdd s.selectedIndices (-1) } false
  else if key = "\r" then
    if multiSelect = true then
      SSOutcome.done (SSResult.many s.selectedItems) true
    else if 0 < s.filteredChoices.length ∧ s.currentIndex < (s.filteredChoices.length : Int) then
      match jsGet s.filteredChoices s.currentIndex with
      | some choice => SSOutcome.done (SSResult.one choice.value) true
      | none => SSOutcome.errored s true
    else
      SSOutcome.done (SSResult.one "") true
  else if key = "\x7f" ∨ key = "\x08" then
    let query := jsSliceDropLast s.searchQuery
    let filtered := filterChoices choices query
    SSOutcome.cont { s with
      searchQuery := query
      filteredChoices := filtered
      currentIndex := mathMin s.currentIndex (mathMax 0 ((filtered.length : Int) - 1)) }
  else if isPrintableKey key = true then
    let query := s.searchQuery ++ key
    let filtered := filterChoices choices query
    SSOutcome.cont { s with
      searchQuery := query
      filteredChoices := filtered
      currentIndex := mathMin s.currentIndex (mathMax 0 ((filtered.length : Int) - 1)) }
  else
    SSOutcome.cont s

/-- Runs `handleKeySearchable` over a sequence of keys. -/
def ssRun (choices : List Choice) (multiSelect : Bool) :
    SSState → List String → SSOutcome
  | s, [] => SSOutcome.cont s
  | s, key :: keys =>
    match handleKeySearchable choices multiSelect s key with
    | SSOutcome.cont s' => ssRun choices multiSelect s' keys
    | outcome => outcome

/-- One entry of `cdkExecutor.listStacks()`: a declared stack. -/
structure StackInfo where
  displayName : String
  fullName : String
  cfStackName : String
deriving Repr, DecidableEq

/-- Result of one CloudFormation `DescribeStacks` call for a backing id:
a found stack record, a "not found" answer, or a thrown error
(permission, network, throttling). -/
inductive LookupOutcome where
  | found (stackId : String) (stackStatus : String) (creationTime : Nat)
      (lastUpdatedTime : Option Nat) (description : Option String)
      (tags : List (String × String))
  | notFound
  | threw (message : String)
deriving Repr, DecidableEq

/-- The `CDKStack` record of `CDKStackService`; `Date` values are modelled
as `Nat` timestamps. -/
structure CDKStack where
  stackName : String
  stackId : Option String
  stackStatus : String
  creationTime : Nat
  lastUpdatedTime : Option Nat
  description : Option String
  tags : List (String × String)
deriving Repr, DecidableEq

/-- `getStackDetails` of `CDKStackService`: the whole body sits inside
try/catch blocks, so the function never propagates an exception — the
result type is `Except` to make that visible to the caller's catch branch.
A found stack yields its record; a "not found" answer returns `null`
(`some`/`none` here); a thrown lookup error is caught by the inner catch,
logged in verbose mode only, and also returns `null`. -/
def getStackDetails (stackName : String) (cfStackName : String)
    (lookup : String → LookupOutcome) : Except String (Option CDKStack) :=
  match lookup cfStackName with
  | LookupOutcome.found sid status ct lut desc tags =>
    Except.ok (some { stackName := stackName
                      stackId := some sid
                      stackStatus := status
                      creationTime := ct
                      lastUpdatedTime := lut
                      description := desc
                      tags := tags })
  | LookupOutcome.notFound => Except.ok none
  | LookupOutcome.threw _ => Except.ok none

/-- The per-stack body of the reconciliation loop in `listCDKStacks`:
a found record is pushed as-is; `null` becomes a synthetic `NOT_DEPLOYED`
entry; a thrown `getStackDetails` would become a synthetic `UNKNOWN` entry
(`catch` branch) — but `getStackDetails` never throws, so that branch is
dead. `now` models `new Date()`. -/
def reconcileStack (lookup : String → LookupOutcome) (now : Nat)
    (stack : StackInfo) : CDKStack :=
  match getStackDetails stack.fullName stack.cfStackName lookup with
  | Except.ok (some stackDetails) => stackDetails
  | Except.ok none =>
    { stackName := stack.fullName
      stackId := none
      stackStatus := "NOT_DEPLOYED"
      creationTime := now
      lastUpdatedTime := some now
      description := some "CDK Stack (not deployed)"
      tags := [] }
  | Except.error _ =>
    { stackName := stack.fullName
      stackId := none
      stackStatus := "UNKNOWN"
      creationTime := now
      lastUpdatedTime := some now
      description := some "CDK Stack (details unavailable)"
      tags := [] }

/-- `listCDKStacks` of `CDKStackService` for a successful listing
`stackInfo`: an empty listing returns `[]`; otherwise the loop pushes
exactly one detailed entry per declared stack, in declared order. -/
def listCDKStacks (stackInfo : List StackInfo)
    (lookup : String → LookupOutcome) (now : Nat) : List CDKStack :=
  if stackInfo.length = 0 then []
  else stackInfo.map (reconcileStack lookup now)

/-- The regex replace `stackName.replace(/\s*\([^)]*\)\s*$/, "")` used by
the deploy/destroy flows: removes a final parenthesized group (whose body
contains no close paren) together with the whitespace around it; if the
string does not end in such a group it is returned unchanged. -/
def cleanStackName (s : String) : String :=
  let rev := s.data.reverse
  let afterWs := rev.dropWhile (fun c => c.isWhitespace)
  match afterWs with
  | ')' :: rest =>
    let body := rest.takeWhile (fun c => c ≠ '(')
    if body.all (fun c => c ≠ ')') then
      match rest.drop body.length with
      | '(' :: beforeParen =>
        String.mk ((beforeParen.dropWhile (fun c => c.isWhitespace)).reverse)
      | _ => s
    else s
  | _ => s

/-- The tail of `showDeployMenu` after `customMultiSelect` resolves: when
no stacks were selected it prints a notice and returns to the menu
(`none`); otherwise `cdkService.deployStack` is invoked with the cleaned
stack names (`some` argument list). -/
def showDeployMenuDispatch (selectedStacks : List String) :
    Option (List String) :=
  if selectedStacks.length = 0 then none
  else some (selectedStacks.map cleanStackName)

/-- The tail of `showDestroyMenu` after `customMultiSelect` resolves: same
guard, invoking `cdkService.destroyStack`. -/
def showDestroyMenuDispatch (selectedStacks : List String) :
    Option (List String) :=
  if selectedStacks.length = 0 then none
  else some (selectedStacks.map cleanStackName)

/-- Modelled from the spec's words, for comparison with the multi-select
result: the values of the selected original indices listed in
original-list order. -/
def selectedValuesInOriginalOrder (choices : List Choice)
    (selectedIndices : List Int) : List String :=
  (List.range choices.length).filterMap (fun (i : Nat) =>
    if selectedIndices.contains (Int.ofNat i) then
      (choices.get? i).map (fun c => c.value)
    else none)

/-! Concrete fixtures used by the evaluation theorems. -/

/-- A one-item choice list. -/
def alphaChoices : List Choice := [⟨"Alpha", "alpha"⟩]

/-- A two-item choice list. -/
def abChoices : List Choice := [⟨"A", "a"⟩, ⟨"B", "b"⟩]

/-- Two declared stacks. -/
def declaredTwo : List StackInfo :=
  [⟨"A", "A (cf-A)", "cf-A"⟩, ⟨"Child", "B/Child (cf-B)", "cf-B"⟩]

/-- A status lookup that answers for `cf-A` and throws a permission error
for every other backing id. -/
def lookupThrowsB : String → LookupOutcome := fun cfStackName =>
  if cfStackName = "cf-A" then
    LookupOutcome.found "arn-A" "CREATE_COMPLETE" 3 none none []
  else
    LookupOutcome.threw "AccessDenied"

/-- Every reconciled entry keeps the declared stack's full name, whatever
the lookup did. -/
theorem reconcileStack_stackName (lookup : String → LookupOutcome)
    (now : Nat) (stack : StackInfo) :
    (reconcileStack lookup now stack).stackName = stack.fullName := by
  cases h : lookup stack.cfStackName <;>
    simp [reconcileStack, getStackDetails, h]

/-- C1: the claim states `status = Unknown` iff the per-stack lookup threw.
On the code a throwing lookup is caught inside `getStackDetails`, which
returns `null`, so `listCDKStacks` records the stack as `NOT_DEPLOYED`
("CDK Stack (not deployed)"); the `UNKNOWN` catch branch is unreachable.
Reconciliation of the remaining stacks does continue (both declared stacks
get exactly one entry). -/
theorem throwing_lookup_reconciles_as_not_deployed :
    lookupThrowsB "cf-B" = LookupOutcome.threw "AccessDenied" ∧
    (listCDKStacks declaredTwo lookupThrowsB 7).map
        (fun s => (s.stackName, s.stackStatus)) =
      [("A (cf-A)", "CREATE_COMPLETE"), ("B/Child (cf-B)", "NOT_DEPLOYED")] ∧
    ((listCDKStacks declaredTwo lookupThrowsB 7).map
        (fun s => s.stackStatus)).contains "UNKNOWN" = false :=
  ⟨rfl, rfl, rfl⟩

/-- C2: reconciliation is a total, order-preserving function: one output
entry per declared stack, and the `i`-th entry's `stackName` is the `i`-th
declared stack's `fullName`. -/
theorem reconciliation_total_and_order_preserving :
    ∀ (stackInfo : List StackInfo) (lookup : String → LookupOutcome)
      (now : Nat),
      (listCDKStacks stackInfo lookup now).length = stackInfo.length ∧
      ∀ (i : Nat),
        ((listCDKStacks stackInfo lookup now).get? i).map
            (fun s => s.stackName) =
          (stackInfo.get? i).map (fun d => d.fullName) := by
  intro stackInfo lookup now
  by_cases h : stackInfo.length = 0
  · have hnil : stackInfo = [] := List.length_eq_zero.mp h
    subst hnil
    exact ⟨by simp [listCDKStacks], by intro i; simp [listCDKStacks]⟩
  · constructor
    · simp [listCDKStacks, h]
    · intro i
      simp only [listCDKStacks, if_neg h, List.getElem?_map, List.get?_eq_getElem?]
      cases hi : stackInfo[i]? <;>
        simp [hi, reconcileStack_stackName]

/-- C3: the claim states `selectedIndices ⊆ {0 … choices.length-1}` in every
reachable state and in particular that ToggleSelect on an empty filtered
view adds nothing out of range.  On the code, searching `z` (no match),
leaving search mode and pressing space makes
`choices.indexOf(filteredChoices[-1])` evaluate to `-1`, which IS inserted
into `selectedIndices` before the read of `actualChoice.value` throws. -/
theorem toggle_on_empty_filter_inserts_out_of_range_index :
    msRun alphaChoices (msInitState alphaChoices) ["/", "z", "\r", " "] =
      MSOutcome.errored ⟨[], -1, [-1], "z", false, []⟩ false ∧
    ¬ ((0 : Int) ≤ -1) :=
  ⟨by decide, by decide⟩

/-- C6: the claim states raw mode is released on every exit path, in
particular on Ctrl-C before process termination.  On the code the Ctrl-C
branch of both key handlers calls `process.exit(0)` directly: no
`setRawMode(false)` runs (the `false` payload), while the Enter branch does
restore it (`true` payload). -/
theorem interrupt_exits_without_restoring_raw_mode :
    handleKeyMulti alphaChoices (msInitState alphaChoices) "\x03" =
      MSOutcome.interrupted false ∧
    handleKeySearchable alphaChoices false (ssInitState alphaChoices) "\x03" =
      SSOutcome.interrupted false ∧
    handleKeyMulti alphaChoices (msInitState alphaChoices) "\r" =
      MSOutcome.done [] true :=
  ⟨rfl, rfl, by decide⟩

/-- C7: the claim states the cursor is clamped to
`max(0, filtered.length-1)` when the filtered view shrinks, and stays in
`[0, filtered.length-1]` whenever the view is non-empty.  On the code,
typing `z` in search mode (no match) sets
`currentIndex = Math.min(0, -1) = -1` (no floor at 0), and the following
Backspace restores the full one-element view while leaving the cursor at
`-1`. -/
theorem filter_change_can_leave_cursor_at_minus_one :
    msRun alphaChoices (msInitState alphaChoices) ["/", "z"] =
      MSOutcome.cont ⟨[], -1, [], "z", true, []⟩ ∧
    msRun alphaChoices (msInitState alphaChoices) ["/", "z", "\x7f"] =
      MSOutcome.cont ⟨[], -1, [], "", true, alphaChoices⟩ ∧
    alphaChoices.length = 1 ∧
    ¬ ((0 : Int) ≤ -1) :=
  ⟨by decide, by decide, rfl, by decide⟩

/-- C4 counterexample: in `customMultiSelect` outside search mode a
printable character (here `a`) matches no branch of `handleKey`: the state
is returned unchanged and the query does not grow. -/
theorem printable_char_ignored_outside_search_mode :
    isPrintableKey "a" = true ∧
    (msInitState alphaChoices).isSearching = false ∧
    handleKeyMulti alphaChoices (msInitState alphaChoices) "a" =
      MSOutcome.cont (msInitState alphaChoices) ∧
    (msInitState alphaChoices).searchQuery = "" :=
  ⟨rfl, rfl, by decide, rfl⟩

/-- C5 counterexample: toggling original index 1 (`b`) and then original
index 0 (`a`) and confirming resolves `["b", "a"]` — the toggle order —
while the values of `selectedIndices = {1, 0}` in original-list order are
`["a", "b"]`. -/
theorem multi_select_result_in_toggle_order :
    msRun abChoices (msInitState abChoices) ["\x1b[B", " ", "\x1b[A", " "] =
      MSOutcome.cont ⟨["b", "a"], 0, [1, 0], "", false, abChoices⟩ ∧
    msRun abChoices (msInitState abChoices)
        ["\x1b[B", " ", "\x1b[A", " ", "\r"] =
      MSOutcome.done ["b", "a"] true ∧
    selectedValuesInOriginalOrder abChoices [1, 0] = ["a", "b"] ∧
    (["b", "a"] : List String) ≠ ["a", "b"] :=
  ⟨by decide, by decide, by decide, by decide⟩

/-- C8 counterexample: for the whitespace-only query `" "` the code's
filter returns every choice (`query.trim()` is falsy) although the query is
not the empty string and no label or value contains a space, so the
specified filter keeps nothing. -/
theorem whitespace_query_matches_all_choices :
    filterChoices alphaChoices " " = alphaChoices ∧
    filterSpec alphaChoices " " = [] ∧
    filterChoices alphaChoices " " ≠ filterSpec alphaChoices " " :=
  ⟨rfl, by decide, by decide⟩

/-- A key whose printable test differs from `key`'s cannot equal `key`. -/
theorem ne_of_printable {key : String} (lit : String)
    (hkey : isPrintableKey key = true) (hlit : isPrintableKey lit = false) :
    key ≠ lit := by
  intro h
  rw [h, hlit] at hkey
  exact Bool.noConfusion hkey

/-- C4 (amended): in `customSearchableSelect` every printable character
except a space in multi-select mode appends to the query and refilters from
the full list; in `customMultiSelect` printable characters append to the
query and refilter exactly while search mode is active. -/
theorem printable_char_grows_query_and_refilters :
    (∀ (choices : List Choice) (multiSelect : Bool) (s : SSState)
        (key : String),
        isPrintableKey key = true → ¬(key = " " ∧ multiSelect = true) →
        handleKeySearchable choices multiSelect s key =
          SSOutcome.cont { s with
            searchQuery := s.searchQuery ++ key
            filteredChoices := filterChoices choices (s.searchQuery ++ key)
            currentIndex := mathMin s.currentIndex (mathMax 0
              (((filterChoices choices (s.searchQuery ++ key)).length : Int)
                - 1)) }) ∧
    (∀ (choices : List Choice) (s : MultiSelectState) (key : String),
        s.isSearching = true → isPrintableKey key = true →
        handleKeyMulti choices s key =
          MSOutcome.cont { s with
            searchQuery := s.searchQuery ++ key
            filteredChoices := filterChoices choices (s.searchQuery ++ key)
            currentIndex := mathMin s.currentIndex
              (((filterChoices choices (s.searchQuery ++ key)).length : Int)
                - 1) }) := by
  constructor
  · intro choices multiSelect s key hkey hsm
    have hup : ¬(key = "\x1b[A" ∨ key = "\x1b[1;2A" ∨ key = "\x1b[1;9A" ∨
        key = "\x1bOA") := by
      rintro (h | h | h | h) <;> exact ne_of_printable _ hkey (by decide) h
    have hdown : ¬(key = "\x1b[B" ∨ key = "\x1b[1;2B" ∨ key = "\x1b[1;9B" ∨
        key = "\x1bOB") := by
      rintro (h | h | h | h) <;> exact ne_of_printable _ hkey (by decide) h
    have hbs : ¬(key = "\x7f" ∨ key = "\x08") := by
      rintro (h | h) <;> exact ne_of_printable _ hkey (by decide) h
    rw [handleKeySearchable,
      if_neg (ne_of_printable "\x03" hkey (by decide)),
      if_neg hup, if_neg hdown, if_neg hsm,
      if_neg (ne_of_printable "\r" hkey (by decide)),
      if_neg hbs, if_pos hkey]
  · intro choices s key hs hkey
    have hslash : ¬(key = "/" ∧ s.isSearching = false) := by
      rintro ⟨-, h⟩
      rw [hs] at h
      exact Bool.noConfusion h
    have hcr : ¬(key = "\r" ∨ key = "\x1b") := by
      rintro (h | h) <;> exact ne_of_printable _ hkey (by decide) h
    have hbs : ¬(key = "\x7f" ∨ key = "\x08") := by
      rintro (h | h) <;> exact ne_of_printable _ hkey (by decide) h
    rw [handleKeyMulti,
      if_neg (ne_of_printable "\x03" hkey (by decide)),
      if_neg hslash, if_pos hs, if_neg hcr, if_neg hbs, if_pos hkey]

/-- C4 witness: typing `z` in the single-select engine on the initial
state appends to the query and filters `Alpha` out. -/
theorem printable_char_grows_query_and_refilters_witness :
    handleKeySearchable alphaChoices false (ssInitState alphaChoices) "z" =
      SSOutcome.cont { ssInitState alphaChoices with
        searchQuery := (ssInitState alphaChoices).searchQuery ++ "z"
        filteredChoices :=
          filterChoices alphaChoices
            ((ssInitState alphaChoices).searchQuery ++ "z")
        currentIndex := mathMin (ssInitState alphaChoices).currentIndex
          (mathMax 0 (((filterChoices alphaChoices
            ((ssInitState alphaChoices).searchQuery ++ "z")).length : Int)
              - 1)) } :=
  printable_char_grows_query_and_refilters.1 alphaChoices false
    (ssInitState alphaChoices) "z" (by decide) (by decide)

/-- C5 (amended): confirming outside search mode resolves the
`selectedStacks` accumulator itself — the values in the order they were
toggled on (appended on select, spliced out on deselect), not re-sorted
into original-list order. -/
theorem confirm_resolves_selected_stacks_accumulator :
    ∀ (choices : List Choice) (s : MultiSelectState),
      s.isSearching = false →
      handleKeyMulti choices s "\r" = MSOutcome.done s.selectedStacks true := by
  intro choices s hs
  have hsearch : ¬(s.isSearching = true) := by
    rw [hs]
    exact Bool.noConfusion
  rw [handleKeyMulti,
    if_neg (by decide : ¬(("\r" : String) = "\x03")),
    if_neg (fun h => absurd h.1 (by decide)),
    if_neg hsearch,
    if_neg (by decide), if_neg (by decide),
    if_neg (by decide : ¬(("\r" : String) = " ")),
    if_pos rfl]

/-- C5 witness: confirming after the toggles of the counterexample yields
the accumulator `["b", "a"]`. -/
theorem confirm_resolves_selected_stacks_accumulator_witness :
    handleKeyMulti abChoices ⟨["b", "a"], 0, [1, 0], "", false, abChoices⟩
      "\r" = MSOutcome.done ["b", "a"] true :=
  confirm_resolves_selected_stacks_accumulator abChoices
    ⟨["b", "a"], 0, [1, 0], "", false, abChoices⟩ rfl

/-- C8 (amended): for every query and choice list the filter returns
exactly the choices satisfying
`trim(Q) = "" ∨ contains_ci(name, Q) ∨ contains_ci(value, Q)` — the
match-all case holds exactly when the query is empty or all-whitespace,
not only when it is the empty string. -/
theorem filterChoices_matches_unless_trimmed_query_empty :
    ∀ (choices : List Choice) (query : String),
      filterChoices choices query =
        choices.filter (fun choice =>
          jsTrim query = "" || containsCI choice.name query ||
          containsCI choice.value query) := by
  intro choices query
  by_cases h : jsTrim query = "" <;>
    simp [filterChoices, containsCI, h]

/-- C9: filter-changing events never mutate the selection in
`customMultiSelect`: while search mode is active, no key event that
continues the session changes `selectedIndices` or `selectedStacks`
(Backspace, printable characters and leaving search mode only touch the
query, the filtered view and the cursor); outside search mode a Backspace
matches no branch and leaves the whole state unchanged. -/
theorem search_mode_never_mutates_selection :
    (∀ (choices : List Choice) (s : MultiSelectState) (key : String)
        (s' : MultiSelectState),
        s.isSearching = true →
        handleKeyMulti choices s key = MSOutcome.cont s' →
        s'.selectedIndices = s.selectedIndices ∧
        s'.selectedStacks = s.selectedStacks) ∧
    (∀ (choices : List Choice) (s : MultiSelectState) (key : String),
        s.isSearching = false →
        (key = "\x7f" ∨ key = "\x08") →
        handleKeyMulti choices s key = MSOutcome.cont s) := by
  constructor
  · intro choices s key s' hs h
    rw [handleKeyMulti] at h
    simp only [hs] at h
    repeat' split at h
    all_goals
      first
        | exact MSOutcome.noConfusion h
        | (cases h; exact ⟨rfl, rfl⟩)
        | simp_all
  · intro choices s key hs hbs
    have hsearch : ¬(s.isSearching = true) := by
      rw [hs]
      exact Bool.noConfusion
    have hslash : ¬(key = "/" ∧ s.isSearching = false) := by
      rintro ⟨h, -⟩
      rcases hbs with hb | hb <;> rw [hb] at h <;> exact absurd h (by decide)
    have hne : ∀ lit : String, lit ≠ "\x7f" → lit ≠ "\x08" → key ≠ lit := by
      intro lit h1 h2 hk
      rcases hbs with hb | hb <;> rw [hk] at hb
      · exact h1 hb
      · exact h2 hb
    rw [handleKeyMulti,
      if_neg (hne "\x03" (by decide) (by decide)),
      if_neg hslash, if_neg hsearch,
      if_neg (by rintro (h | h | h | h) <;>
        exact hne _ (by decide) (by decide) h),
      if_neg (by rintro (h | h | h | h) <;>
        exact hne _ (by decide) (by decide) h),
      if_neg (hne " " (by decide) (by decide)),
      if_neg (hne "\r" (by decide) (by decide))]

/-- C9 witness: typing `b` while searching with original index 0 selected
leaves the selection untouched. -/
theorem search_mode_never_mutates_selection_witness :
    (([0] : List Int) = [0] ∧ (["x"] : List String) = ["x"]) ∧
    handleKeyMulti alphaChoices ⟨["x"], 0, [0], "", false, alphaChoices⟩
      "\x7f" = MSOutcome.cont ⟨["x"], 0, [0], "", false, alphaChoices⟩ :=
  ⟨search_mode_never_mutates_selection.1 alphaChoices
      ⟨["x"], 0, [0], "a", true, alphaChoices⟩ "b"
      ⟨["x"], -1, [0], "ab", true, []⟩ rfl (by decide),
   search_mode_never_mutates_selection.2 alphaChoices
      ⟨["x"], 0, [0], "", false, alphaChoices⟩ "\x7f" rfl (Or.inl rfl)⟩

/-- C10: the deploy and destroy flows return to the menu on an empty
confirmed selection without invoking the executor, and whenever the
executor is invoked its argument list is non-empty. -/
theorem empty_selection_skips_executor :
    ∀ (selectedStacks : List String),
      (selectedStacks = [] →
        showDeployMenuDispatch selectedStacks = none ∧
        showDestroyMenuDispatch selectedStacks = none) ∧
      (∀ names, showDeployMenuDispatch selectedStacks = some names →
        names ≠ []) ∧
      (∀ names, showDestroyMenuDispatch selectedStacks = some names →
        names ≠ []) := by
  intro selectedStacks
  refine ⟨?_, ?_, ?_⟩
  · intro h
    subst h
    exact ⟨rfl, rfl⟩
  · intro names h
    by_cases hl : selectedStacks.length = 0
    · rw [showDeployMenuDispatch, if_pos hl] at h
      exact Option.noConfusion h
    · rw [showDeployMenuDispatch, if_neg hl] at h
      have hmap := Option.some.inj h
      intro hn
      rw [hn, List.map_eq_nil_iff] at hmap
      rw [hmap] at hl
      exact hl rfl
  · intro names h
    by_cases hl : selectedStacks.length = 0
    · rw [showDestroyMenuDispatch, if_pos hl] at h
      exact Option.noConfusion h
    · rw [showDestroyMenuDispatch, if_neg hl] at h
      have hmap := Option.some.inj h
      intro hn
      rw [hn, List.map_eq_nil_iff] at hmap
      rw [hmap] at hl
      exact hl rfl

/-- C10 witness: the empty selection skips both executors, and the
one-stack selection reaches the executor with the non-empty cleaned
list `["A"]`. -/
theorem empty_selection_skips_executor_witness :
    (showDeployMenuDispatch [] = none ∧
      showDestroyMenuDispatch [] = none) ∧
    (["A"] : List String) ≠ [] :=
  ⟨(empty_selection_skips_executor []).1 rfl,
   (empty_selection_skips_executor ["A (cf-a)"]).2.1 ["A"] (by decide)⟩

end CDKManager
